import Mathlib

/-!
Verification of the mec-one authentication / session / authorization core.

The definitions below are a shallow embedding of the TypeScript source:
  * `src/shared/schema.ts` (auth module part): token service, password codec,
    `generateTemporaryPassword`, `authenticate`, `authorize`;
  * `src/server/storage.ts` (`DatabaseStorage`): user / session / audit
    operations, modelled as pure functions over an explicit `Store`;
  * `src/server/routes.ts`: the login / refresh / logout handlers.

Conventions of the embedding:
  * JavaScript `undefined`-able values are `Option`; the JS falsiness of a
    string (`!s` true for `undefined` and `""`) is modelled explicitly.
  * Time is a `Nat` of milliseconds (`Date.now()`); `jwt` expiries
    `'15m'` / `'7d'` become `now + 900000` / `now + 604800000`.
  * Signed JWTs are modelled symbolically (Dolev–Yao style): a token value
    is either a blob produced by `jwt.sign` — carrying its payload, the
    signing secret and the expiry — or an arbitrary non-token string.
    `jwt.verify` succeeds exactly on an unexpired blob signed with the
    given secret; this models signature + expiry checking of the library.
  * The database is a `Store` of lists; drizzle `select ... where` is
    `List.find?`, `update ... where` is `List.map` guarded by the `where`
    condition, `insert` is list append.  Handlers thread the `Store`
    explicitly and return `Resp × Store`.
  * The audit insert used by the login / logout handlers can fail at the
    database (a rejected promise); this is modelled by a boolean
    `auditOk` parameter: when it is `false` the handler takes its
    `catch` branch, exactly as the source's `try`/`catch` does.
-/

namespace MecOne

/-- Claims carried inside both tokens (source: `TokenPayload`,
`src/shared/schema.ts` auth part). -/
structure TokenPayload where
  userId : String
  email : String
  profile : String
deriving DecidableEq, Repr

/-- A JWT wire value, modelled symbolically: `signed` is the blob produced
by `jwt.sign(payload, secret, {expiresIn})` (expiry as absolute ms), and
`raw` is any string that was not produced by `jwt.sign`. -/
inductive Jwt where
  | signed (payload : TokenPayload) (secret : String) (exp : Nat)
  | raw (s : String)
deriving DecidableEq, Repr

/-- `jwt.verify(token, secret)` at time `now`: returns the payload exactly
when the blob was signed with `secret` and is not expired. -/
def jwtVerify (t : Jwt) (secret : String) (now : Nat) : Option TokenPayload :=
  match t with
  | .signed p s e => if s = secret ∧ now < e then some p else none
  | .raw _ => none

/-- The process environment variables read by the auth module. -/
structure Env where
  jwtSecret : Option String
  jwtRefreshSecret : Option String

/-- JS `process.env.X || defaultValue`: the default is used when the
variable is absent or the empty string (JS falsiness). -/
def jsOrDefault (o : Option String) (d : String) : String :=
  match o with
  | none => d
  | some s => if s = "" then d else s

/-- `const JWT_SECRET = process.env.JWT_SECRET || 'your-secret-key-change-in-production'`. -/
def JWT_SECRET (env : Env) : String :=
  jsOrDefault env.jwtSecret "your-secret-key-change-in-production"

/-- `const JWT_REFRESH_SECRET = process.env.JWT_REFRESH_SECRET || 'your-refresh-secret-key-change-in-production'`. -/
def JWT_REFRESH_SECRET (env : Env) : String :=
  jsOrDefault env.jwtRefreshSecret "your-refresh-secret-key-change-in-production"

/-- `generateTokens(payload)`: access token signed with `JWT_SECRET`,
expiry 15 minutes; refresh token signed with `JWT_REFRESH_SECRET`,
expiry 7 days. -/
def generateTokens (env : Env) (now : Nat) (payload : TokenPayload) : Jwt × Jwt :=
  (Jwt.signed payload (JWT_SECRET env) (now + 900000),
   Jwt.signed payload (JWT_REFRESH_SECRET env) (now + 604800000))

/-- `verifyToken(token)`: verify against `JWT_SECRET`, `null` on failure. -/
def verifyToken (env : Env) (now : Nat) (t : Jwt) : Option TokenPayload :=
  jwtVerify t (JWT_SECRET env) now

/-- `verifyRefreshToken(token)`: verify against `JWT_REFRESH_SECRET`,
`null` on failure. -/
def verifyRefreshToken (env : Env) (now : Nat) (t : Jwt) : Option TokenPayload :=
  jwtVerify t (JWT_REFRESH_SECRET env) now

/-- `hashPassword` (bcrypt cost 12), modelled symbolically as an
injective tagging of the plaintext. -/
def hashPassword (password : String) : String :=
  "$2b$12$" ++ password

/-- `comparePassword(password, hash)`: true exactly when `hash` is the
hash of `password` (symbolic model of `bcrypt.compare`). -/
def comparePassword (password hash : String) : Bool :=
  hash = hashPassword password

/-- A `users` table row (fields used by the auth core). -/
structure UserRec where
  id : String
  email : String
  firstName : String
  lastName : String
  password : String
  profile : String
  isActive : Bool
  mustChangePassword : Bool
  lastLogin : Option Nat
deriving DecidableEq, Repr

/-- A `user_sessions` table row. -/
structure SessionRec where
  userId : String
  token : Jwt
  isActive : Bool
  expiresAt : Nat
  ipAddress : Option String
  userAgent : Option String
deriving DecidableEq, Repr

/-- An `audit_logs` table row (fields written by the auth core). -/
structure AuditEntry where
  userId : Option String
  action : String
  table : String
  recordId : Option String
  ipAddress : Option String
  userAgent : Option String
deriving DecidableEq, Repr

/-- The database state seen by the auth core. -/
structure Store where
  users : List UserRec
  sessions : List SessionRec
  audits : List AuditEntry
deriving DecidableEq, Repr

/-- `DatabaseStorage.getUser(id)`: `select ... where eq(users.id, id)`,
first matching row. -/
def getUser (s : Store) (id : String) : Option UserRec :=
  s.users.find? fun u => decide (u.id = id)

/-- `DatabaseStorage.getUserByEmail(email)`. -/
def getUserByEmail (s : Store) (email : String) : Option UserRec :=
  s.users.find? fun u => decide (u.email = email)

/-- `DatabaseStorage.updateUserLastLogin(id, lastLogin)`. -/
def updateUserLastLogin (s : Store) (id : String) (t : Nat) : Store :=
  { s with users := s.users.map fun u =>
      if u.id = id then { u with lastLogin := some t } else u }

/-- `DatabaseStorage.createSession(userId, token, expiresAt, ip?, ua?)`:
inserts a row; `isActive` takes its column default `true`. -/
def createSession (s : Store) (userId : String) (token : Jwt) (expiresAt : Nat)
    (ip ua : Option String) : Store :=
  { s with sessions := s.sessions ++ [⟨userId, token, true, expiresAt, ip, ua⟩] }

/-- `DatabaseStorage.getActiveSession(token)`:
`where and(eq(userSessions.token, token), eq(userSessions.isActive, true))` —
the stored `expiresAt` is not consulted. -/
def getActiveSession (s : Store) (token : Jwt) : Option SessionRec :=
  s.sessions.find? fun r => decide (r.token = token) && r.isActive

/-- `DatabaseStorage.deactivateSession(token)`: sets `isActive := false`
on every row whose token matches. -/
def deactivateSession (s : Store) (token : Jwt) : Store :=
  { s with sessions := s.sessions.map fun r =>
      if r.token = token then { r with isActive := false } else r }

/-- `DatabaseStorage.createAuditLog(log)`: appends one audit row. -/
def createAuditLog (s : Store) (e : AuditEntry) : Store :=
  { s with audits := s.audits ++ [e] }

/-- The password-stripped user projection returned by the login handler. -/
structure UserProj where
  id : String
  email : String
  firstName : String
  lastName : String
  profile : String
  mustChangePassword : Bool
deriving DecidableEq, Repr

/-- A JSON response body, restricted to the shapes the auth handlers emit. -/
inductive RespBody where
  | msg (m : String)
  | loginOk (accessToken refreshToken : Jwt) (user : UserProj)
  | refreshOk (accessToken refreshToken : Jwt)
deriving DecidableEq, Repr

/-- An HTTP response: status code plus JSON body. -/
structure Resp where
  status : Nat
  body : RespBody
deriving DecidableEq, Repr

/-- The identity the Authentication Gate attaches to the request
(`req.user` of `AuthRequest`). -/
structure AuthUser where
  id : String
  email : String
  profile : String
deriving DecidableEq, Repr

/-- Outcome of a middleware: a terminal response, or `next()` with the
attached identity. -/
inductive AuthOutcome where
  | reject (r : Resp)
  | proceed (u : AuthUser)
deriving DecidableEq, Repr

/-- Outcome of the Authorization Gate: a terminal response or `next()`. -/
inductive GateOutcome where
  | reject (r : Resp)
  | proceed
deriving DecidableEq, Repr

/-- JS string falsiness: `!s` is true for `undefined` and for `""`. -/
def jsFalsy : Option String → Bool
  | none => true
  | some s => decide (s = "")

/-- JS `s.split(' ')` on the underlying character list: splits at every
single space, keeping empty pieces (`"a  b"` gives `["a", "", "b"]`,
`""` gives `[""]`). -/
def splitSpace : List Char → List Char → List (List Char)
  | [], acc => [acc.reverse]
  | c :: cs, acc =>
    if c = ' ' then acc.reverse :: splitSpace cs []
    else splitSpace cs (c :: acc)

/-- `authHeader.split(' ')[1]` followed by the `if (!token)` check of
`authenticate`: `none` when index 1 is `undefined` or falsy (`""`). -/
def bearerToken (authHeader : String) : Option String :=
  match ((splitSpace authHeader.data []).map String.mk).get? 1 with
  | none => none
  | some t => if t = "" then none else some t

/-- The `authenticate` middleware (`src/shared/schema.ts` auth part).
`decode` is the ambient wire decoding of header substrings into JWT blobs
(the base64 parsing done inside `jwt.verify`); everything after it follows
the source line by line.  On success the `API_ACCESS` audit row is
appended and the identity built from the token payload is attached. -/
def authenticate (decode : String → Jwt) (env : Env) (now : Nat)
    (ip ua : Option String) (s : Store) (authHeader : Option String) :
    AuthOutcome × Store :=
  match authHeader with
  | none => (.reject ⟨401, .msg "No authorization header provided"⟩, s)
  | some h =>
    if h = "" then (.reject ⟨401, .msg "No authorization header provided"⟩, s)
    else
      match bearerToken h with
      | none => (.reject ⟨401, .msg "No token provided"⟩, s)
      | some tok =>
        match verifyToken env now (decode tok) with
        | none => (.reject ⟨401, .msg "Invalid or expired token"⟩, s)
        | some payload =>
          match getUser s payload.userId with
          | none => (.reject ⟨401, .msg "User not found or inactive"⟩, s)
          | some user =>
            if user.isActive then
              (.proceed ⟨payload.userId, payload.email, payload.profile⟩,
               createAuditLog s ⟨some payload.userId, "API_ACCESS", "users",
                 some payload.userId, ip, ua⟩)
            else (.reject ⟨401, .msg "User not found or inactive"⟩, s)

/-- The `authorize(profiles)` middleware: a pure function of the attached
identity and the allow-set (`profiles.includes(req.user.profile)`). -/
def authorize (profiles : List String) (user : Option AuthUser) : GateOutcome :=
  match user with
  | none => .reject ⟨401, .msg "Not authenticated"⟩
  | some u =>
    if u.profile ∈ profiles then .proceed
    else .reject ⟨403, .msg "Insufficient permissions"⟩

/-- The Authentication Gate followed by the Authorization Gate, as composed
on a protected route: the authorization decision seen by the wrapped
handler. -/
def authPipeline (decode : String → Jwt) (env : Env) (now : Nat)
    (ip ua : Option String) (s : Store) (authHeader : Option String)
    (profiles : List String) : GateOutcome :=
  match (authenticate decode env now ip ua s authHeader).1 with
  | .reject r => .reject r
  | .proceed u => authorize profiles (some u)

/-- Body of `POST /api/auth/login` (`req.body.email` / `req.body.password`,
either possibly `undefined`). -/
structure LoginBody where
  email : Option String
  password : Option String
deriving DecidableEq, Repr

/-- The `POST /api/auth/login` handler (`src/server/routes.ts` lines
43–108).  `auditOk` models whether the awaited `createAuditLog` insert
succeeds; when it rejects, control jumps to the handler's `catch`, which
returns 500 — the earlier `updateUserLastLogin` and `createSession`
writes have already been committed and persist. -/
def login (env : Env) (now : Nat) (auditOk : Bool) (ip ua : Option String)
    (s : Store) (body : LoginBody) : Resp × Store :=
  if jsFalsy body.email || jsFalsy body.password then
    (⟨400, .msg "Email and password are required"⟩, s)
  else
    match body.email with
    | none => (⟨400, .msg "Email and password are required"⟩, s)
    | some email =>
      match body.password with
      | none => (⟨400, .msg "Email and password are required"⟩, s)
      | some password =>
        match getUserByEmail s email with
        | none => (⟨401, .msg "Invalid credentials"⟩, s)
        | some user =>
          if !user.isActive then (⟨401, .msg "Invalid credentials"⟩, s)
          else if !comparePassword password user.password then
            (⟨401, .msg "Invalid credentials"⟩, s)
          else
            let tokens := generateTokens env now
              ⟨user.id, user.email, user.profile⟩
            let s1 := updateUserLastLogin s user.id now
            let s2 := createSession s1 user.id tokens.2
              (now + 7 * 24 * 60 * 60 * 1000) ip ua
            if auditOk then
              (⟨200, .loginOk tokens.1 tokens.2
                  ⟨user.id, user.email, user.firstName, user.lastName,
                   user.profile, user.mustChangePassword⟩⟩,
               createAuditLog s2 ⟨some user.id, "LOGIN", "users",
                 some user.id, ip, ua⟩)
            else (⟨500, .msg "Internal server error"⟩, s2)

/-- The `POST /api/auth/refresh` handler (`src/server/routes.ts` lines
110–151).  The body token is `none` when absent or falsy.  Note: issues a
new pair but performs no store write at all. -/
def refresh (env : Env) (now : Nat) (s : Store) (body : Option Jwt) :
    Resp × Store :=
  match body with
  | none => (⟨400, .msg "Refresh token is required"⟩, s)
  | some rt =>
    match verifyRefreshToken env now rt with
    | none => (⟨401, .msg "Invalid refresh token"⟩, s)
    | some payload =>
      match getActiveSession s rt with
      | none => (⟨401, .msg "Session not found or expired"⟩, s)
      | some _ =>
        match getUser s payload.userId with
        | none => (⟨401, .msg "User not found or inactive"⟩, s)
        | some user =>
          if !user.isActive then
            (⟨401, .msg "User not found or inactive"⟩, s)
          else
            let tokens := generateTokens env now
              ⟨user.id, user.email, user.profile⟩
            (⟨200, .refreshOk tokens.1 tokens.2⟩, s)

/-- The `POST /api/auth/logout` handler body after `authenticate` has
attached `user` (`src/server/routes.ts` lines 153–176).  `auditOk` as in
`login`: a rejected audit insert jumps to the `catch`, after the session
deactivation has already been committed. -/
def logout (auditOk : Bool) (ip ua : Option String) (user : AuthUser)
    (s : Store) (body : Option Jwt) : Resp × Store :=
  let s1 := match body with
    | some rt => deactivateSession s rt
    | none => s
  if auditOk then
    (⟨200, .msg "Logged out successfully"⟩,
     createAuditLog s1 ⟨some user.id, "LOGOUT", "users", some user.id, ip, ua⟩)
  else (⟨500, .msg "Internal server error"⟩, s1)

/-- The base-36 digit characters `0-9a-z` used by JS `Number.toString(36)`. -/
def base36Digit (n : Nat) : Char :=
  if n < 10 then Char.ofNat (48 + n) else Char.ofNat (87 + n)

/-- `2^53`: denominators of the IEEE-754 doubles `Math.random()` returns
(every such value is `k / 2^53` with `k < 2^53`). -/
def pow53 : Nat := 2 ^ 53

/-- Fractional base-36 digits of `k / 2^53`, most significant first; the
expansion terminates (36 = 2²·3², so at most 27 digits), and the digit
list is empty once the remainder is zero. -/
def frac36 : Nat → Nat → List Char
  | 0, _ => []
  | _ + 1, 0 => []
  | fuel + 1, k =>
    base36Digit (k * 36 / pow53) :: frac36 fuel (k * 36 % pow53)

/-- JS `x.toString(36)` for `x = k / 2^53` (the exact value of a double in
`[0,1)`): `"0"` for zero, otherwise `"0."` followed by the terminating
base-36 expansion. -/
def jsToString36 (k : Nat) : String :=
  if k = 0 then "0" else "0." ++ String.mk (frac36 27 k)

/-- JS `s.slice(-8)`: the last 8 characters, or the whole string when it
is shorter than 8. -/
def jsSliceNeg8 (s : String) : String :=
  String.mk (s.data.drop (s.data.length - 8))

/-- `generateTemporaryPassword()` =
`Math.random().toString(36).slice(-8)`, as a function of the value
`k / 2^53` returned by `Math.random()`. -/
def generateTemporaryPassword (k : Nat) : String :=
  jsSliceNeg8 (jsToString36 k)

/-- Rewrites every stored session's `expiresAt` through `g`, leaving all
other fields and tables alone — used to state that the refresh path never
consults the stored expiry. -/
def mapExpiry (g : SessionRec → Nat) (s : Store) : Store :=
  { s with sessions := s.sessions.map fun r => { r with expiresAt := g r } }

/-- The part of the user table `authenticate` actually observes: presence
of the record and its `isActive` flag. -/
def userView (s : Store) (id : String) : Option Bool :=
  (getUser s id).map (·.isActive)

/-- The environment with neither signing secret set. -/
def env0 : Env := ⟨none, none⟩

/-- A sample token payload. -/
def demoPayload : TokenPayload := ⟨"u1", "admin@mecone.com", "ADMINISTRATOR"⟩

/-- A sample active user whose stored password is the hash of `admin123`. -/
def demoUser : UserRec :=
  ⟨"u1", "admin@mecone.com", "Administrator", "System",
   hashPassword "admin123", "ADMINISTRATOR", true, true, none⟩

/-- The same user with a different role and email (same id and activity). -/
def demoUserAlt : UserRec :=
  { demoUser with profile := "COORDINATOR", email := "other@mecone.com" }

/-- A sample refresh token for `demoPayload` under `env0`. -/
def demoRefreshJwt : Jwt :=
  Jwt.signed demoPayload (JWT_REFRESH_SECRET env0) 604800000

/-- A wire decoding that yields a valid access token for `demoPayload`. -/
def demoDecode : String → Jwt :=
  fun _ => Jwt.signed demoPayload (JWT_SECRET env0) 900000

/-- A stored session for `demoRefreshJwt` that is active but whose
`expiresAt` (5 ms) is already in the past at any `now > 5`. -/
def demoSession : SessionRec := ⟨"u1", demoRefreshJwt, true, 5, none, none⟩

/-- A store with the sample user and session. -/
def demoStore : Store := ⟨[demoUser], [demoSession], []⟩

/-- `demoStore` with the user's role and email changed, nothing else. -/
def demoStoreAlt : Store := ⟨[demoUserAlt], [demoSession], []⟩

/-- C3: a token signed as an access token fails refresh-token
verification and a token signed as a refresh token fails access-token
verification (at any verification time), whenever the two resolved
signing secrets differ — even though both tokens carry the identical
payload. -/
theorem tokens_not_interchangeable (env : Env) (now n1 n2 : Nat)
    (payload : TokenPayload) (h : JWT_SECRET env ≠ JWT_REFRESH_SECRET env) :
    verifyRefreshToken env n1 (generateTokens env now payload).1 = none ∧
    verifyToken env n2 (generateTokens env now payload).2 = none := by
  constructor
  · simp [verifyRefreshToken, generateTokens, jwtVerify, h]
  · simp [verifyToken, generateTokens, jwtVerify, Ne.symm h]

/-- Witness for C3 at the default environment, whose two built-in secrets
differ. -/
theorem tokens_not_interchangeable_witness :
    verifyRefreshToken env0 0 (generateTokens env0 0 demoPayload).1 = none ∧
    verifyToken env0 0 (generateTokens env0 0 demoPayload).2 = none :=
  tokens_not_interchangeable env0 0 0 0 demoPayload (by decide)

/-- C6: the Authorization Gate is a pure function of the attached
identity and the allow-set: no identity gives 401 "Not authenticated", a
role outside the allow-set gives 403 "Insufficient permissions", and a
role inside it passes control through. -/
theorem authorize_gate (profiles : List String) (user : Option AuthUser) :
    (user = none →
      authorize profiles user = .reject ⟨401, .msg "Not authenticated"⟩) ∧
    (∀ u, user = some u → u.profile ∉ profiles →
      authorize profiles user = .reject ⟨403, .msg "Insufficient permissions"⟩) ∧
    (∀ u, user = some u → u.profile ∈ profiles →
      authorize profiles user = .proceed) := by
  refine ⟨?_, ?_, ?_⟩
  · rintro rfl; rfl
  · rintro u rfl hn; simp [authorize, hn]
  · rintro u rfl hm; simp [authorize, hm]

/-- Witness for C6: against the allow-set {ADMINISTRATOR, MANAGER}, a
COORDINATOR gets 403, a MANAGER passes through, and a missing identity
gets 401. -/
theorem authorize_gate_witness :
    authorize ["ADMINISTRATOR", "MANAGER"]
      (some ⟨"u2", "c@mecone.com", "COORDINATOR"⟩) =
      .reject ⟨403, .msg "Insufficient permissions"⟩ ∧
    authorize ["ADMINISTRATOR", "MANAGER"]
      (some ⟨"u3", "m@mecone.com", "MANAGER"⟩) = .proceed ∧
    authorize ["ADMINISTRATOR", "MANAGER"] none =
      .reject ⟨401, .msg "Not authenticated"⟩ :=
  ⟨(authorize_gate _ _).2.1 _ rfl (by decide),
   (authorize_gate _ _).2.2 _ rfl (by decide),
   (authorize_gate _ _).1 rfl⟩

/-- C8 counterexample: with both environment variables absent, the token
service signs and verifies with the built-in constant fallback secret, so
the secrets ARE defaulted, contrary to the claim. -/
theorem secrets_defaulted_counterexample :
    JWT_SECRET env0 = "your-secret-key-change-in-production" ∧
    JWT_REFRESH_SECRET env0 = "your-refresh-secret-key-change-in-production" ∧
    (generateTokens env0 0 demoPayload).1 =
      Jwt.signed demoPayload "your-secret-key-change-in-production" 900000 ∧
    verifyToken env0 0
      (Jwt.signed demoPayload "your-secret-key-change-in-production" 900000) =
      some demoPayload := by
  refine ⟨rfl, rfl, rfl, by decide⟩

/-- C8 amended: the secrets are read from the environment but fall back
to built-in constants when the variable is absent (or empty); a set,
non-empty variable is used as-is. -/
theorem secrets_env_or_default (p : TokenPayload) (now : Nat) (env : Env)
    (s t : String) :
    generateTokens ⟨none, none⟩ now p =
      (Jwt.signed p "your-secret-key-change-in-production" (now + 900000),
       Jwt.signed p "your-refresh-secret-key-change-in-production"
         (now + 604800000)) ∧
    (env.jwtSecret = some s → s ≠ "" → JWT_SECRET env = s) ∧
    (env.jwtRefreshSecret = some t → t ≠ "" → JWT_REFRESH_SECRET env = t) := by
  refine ⟨rfl, ?_, ?_⟩
  · intro hs hne; simp [JWT_SECRET, jsOrDefault, hs, hne]
  · intro ht hne; simp [JWT_REFRESH_SECRET, jsOrDefault, ht, hne]

/-- Witness for the amended C8. -/
theorem secrets_env_or_default_witness :
    generateTokens ⟨none, none⟩ 0 demoPayload =
      (Jwt.signed demoPayload "your-secret-key-change-in-production" 900000,
       Jwt.signed demoPayload "your-refresh-secret-key-change-in-production"
         604800000) ∧
    JWT_SECRET ⟨some "alpha", some "beta"⟩ = "alpha" ∧
    JWT_REFRESH_SECRET ⟨some "alpha", some "beta"⟩ = "beta" :=
  ⟨(secrets_env_or_default demoPayload 0 ⟨some "alpha", some "beta"⟩
      "alpha" "beta").1,
   (secrets_env_or_default demoPayload 0 ⟨some "alpha", some "beta"⟩
      "alpha" "beta").2.1 rfl (by decide),
   (secrets_env_or_default demoPayload 0 ⟨some "alpha", some "beta"⟩
      "alpha" "beta").2.2 rfl (by decide)⟩

/-- C9 (code bug): `generateTemporaryPassword` does not always return at
least 6 characters.  `Math.random()` may return 0, whose base-36 string
is "0" (1 character), or 0.5 (numerator 2^52 over 2^53), whose base-36
string is "0.i" (3 characters); `slice(-8)` keeps such short strings
whole. -/
theorem generateTemporaryPassword_too_short :
    generateTemporaryPassword 0 = "0" ∧
    (generateTemporaryPassword 0).length = 1 ∧
    generateTemporaryPassword (2 ^ 52) = "0.i" ∧
    (generateTemporaryPassword (2 ^ 52)).length = 3 ∧
    2 ^ 52 < 2 ^ 53 :=
  ⟨rfl, rfl, by decide, by decide, by norm_num⟩

/-- C1: every credential-verification failure in the login handler —
unknown email, inactive user, or wrong password — produces the identical
response `(401, {message:"Invalid credentials"})` and leaves the store
unchanged, so the three failing cases are byte-identical. -/
theorem login_uniform_invalid_credentials (env : Env) (now : Nat)
    (auditOk : Bool) (ip ua : Option String) (s : Store)
    (email password : String) (he : email ≠ "") (hp : password ≠ "") :
    (getUserByEmail s email = none →
      login env now auditOk ip ua s ⟨some email, some password⟩ =
        (⟨401, .msg "Invalid credentials"⟩, s)) ∧
    (∀ u, getUserByEmail s email = some u → u.isActive = false →
      login env now auditOk ip ua s ⟨some email, some password⟩ =
        (⟨401, .msg "Invalid credentials"⟩, s)) ∧
    (∀ u, getUserByEmail s email = some u →
      comparePassword password u.password = false →
      login env now auditOk ip ua s ⟨some email, some password⟩ =
        (⟨401, .msg "Invalid credentials"⟩, s)) := by
  have hfe : jsFalsy (some email) = false := by simp [jsFalsy, he]
  have hfp : jsFalsy (some password) = false := by simp [jsFalsy, hp]
  refine ⟨?_, ?_, ?_⟩
  · intro hu; simp [login, hfe, hfp, hu]
  · intro u hu hact; simp [login, hfe, hfp, hu, hact]
  · intro u hu hcmp
    cases hact : u.isActive with
    | false => simp [login, hfe, hfp, hu, hact]
    | true => simp [login, hfe, hfp, hu, hact, hcmp]

/-- Witness for C1: against the demo store, an unknown email and a known
email with a wrong password produce equal responses. -/
theorem login_uniform_invalid_credentials_witness :
    login env0 0 true none none demoStore
      ⟨some "ghost@mecone.com", some "admin123"⟩ =
      (⟨401, .msg "Invalid credentials"⟩, demoStore) ∧
    login env0 0 true none none demoStore
      ⟨some "admin@mecone.com", some "wrong"⟩ =
      (⟨401, .msg "Invalid credentials"⟩, demoStore) :=
  ⟨(login_uniform_invalid_credentials env0 0 true none none demoStore
      "ghost@mecone.com" "admin123" (by decide) (by decide)).1 (by decide),
   (login_uniform_invalid_credentials env0 0 true none none demoStore
      "admin@mecone.com" "wrong" (by decide) (by decide)).2.2 demoUser
      (by decide) (by decide)⟩

/-- C4: a successful refresh issues a brand-new token pair from the
looked-up user's fields but performs no store write at all: the returned
store is the input store, so no session row is created for the new
refresh token, the old session row is not deactivated or replaced, and
the old refresh token still satisfies the active-session lookup. -/
theorem refresh_leaves_sessions_unchanged (env : Env) (now : Nat)
    (s : Store) (rt : Jwt) (p : TokenPayload) (sess : SessionRec)
    (u : UserRec) (hv : verifyRefreshToken env now rt = some p)
    (hs : getActiveSession s rt = some sess)
    (hu : getUser s p.userId = some u) (ha : u.isActive = true) :
    refresh env now s (some rt) =
      (⟨200, .refreshOk (generateTokens env now ⟨u.id, u.email, u.profile⟩).1
          (generateTokens env now ⟨u.id, u.email, u.profile⟩).2⟩, s) ∧
    getActiveSession (refresh env now s (some rt)).2 rt = some sess := by
  have h1 : refresh env now s (some rt) =
      (⟨200, .refreshOk (generateTokens env now ⟨u.id, u.email, u.profile⟩).1
          (generateTokens env now ⟨u.id, u.email, u.profile⟩).2⟩, s) := by
    simp [refresh, hv, hs, hu, ha]
  exact ⟨h1, by rw [h1]; exact hs⟩

/-- Witness for C4 in the demo store: the previously stored session
survives the refresh untouched. -/
theorem refresh_leaves_sessions_unchanged_witness :
    refresh env0 100 demoStore (some demoRefreshJwt) =
      (⟨200, .refreshOk
          (generateTokens env0 100
            ⟨demoUser.id, demoUser.email, demoUser.profile⟩).1
          (generateTokens env0 100
            ⟨demoUser.id, demoUser.email, demoUser.profile⟩).2⟩, demoStore) ∧
    getActiveSession (refresh env0 100 demoStore (some demoRefreshJwt)).2
      demoRefreshJwt = some demoSession :=
  refresh_leaves_sessions_unchanged env0 100 demoStore demoRefreshJwt
    demoPayload demoSession demoUser (by decide) (by decide) (by decide) rfl

/-- Helper: `List.find?` with the active-session predicate is blind to a
rewrite of every element's `expiresAt` field. -/
theorem find?_active_mapExpiry (g : SessionRec → Nat) (tok : Jwt) :
    ∀ l : List SessionRec,
      (List.find? (fun r => decide (r.token = tok) && r.isActive)
        (l.map fun r => { r with expiresAt := g r })).isSome =
      (List.find? (fun r => decide (r.token = tok) && r.isActive) l).isSome := by
  intro l
  induction l with
  | nil => rfl
  | cons a l ih =>
    cases hpa : (decide (a.token = tok) && a.isActive) with
    | false => simpa [List.find?, hpa] using ih
    | true => simp [List.find?, hpa]

/-- Helper: the user table is untouched by `mapExpiry`. -/
theorem getUser_mapExpiry (g : SessionRec → Nat) (s : Store) (id : String) :
    getUser (mapExpiry g s) id = getUser s id := rfl

/-- C5: `getActiveSession` returns a session exactly when its token
matches and `isActive` is true, irrespective of `expiresAt` (rewriting
every stored expiry changes nothing), and the whole refresh response is
likewise invariant under any rewrite of the stored expiries — the flow
never compares the record's `expiresAt` with the current time. -/
theorem getActiveSession_ignores_expiry (s : Store) (tok : Jwt) (now : Nat) :
    ((getActiveSession s tok).isSome ↔
      ∃ r ∈ s.sessions, r.token = tok ∧ r.isActive = true) ∧
    (∀ r, getActiveSession s tok = some r →
      r.token = tok ∧ r.isActive = true) ∧
    (∀ g, (getActiveSession (mapExpiry g s) tok).isSome =
      (getActiveSession s tok).isSome) ∧
    (∀ env b g, (refresh env now (mapExpiry g s) b).1 =
      (refresh env now s b).1) := by
  refine ⟨?_, ?_, ?_, ?_⟩
  · simp [getActiveSession, List.find?_isSome, Bool.and_eq_true,
      decide_eq_true_eq]
  · intro r hr
    have := List.find?_some hr
    simpa [Bool.and_eq_true, decide_eq_true_eq] using this
  · intro g; exact find?_active_mapExpiry g tok s.sessions
  · intro env b g
    cases b with
    | none => rfl
    | some rt =>
      cases hv : verifyRefreshToken env now rt with
      | none => simp [refresh, hv]
      | some p =>
        have hiso : (getActiveSession (mapExpiry g s) rt).isSome =
            (getActiveSession s rt).isSome :=
          find?_active_mapExpiry g rt s.sessions
        cases hs1 : getActiveSession s rt with
        | none =>
          cases hs2 : getActiveSession (mapExpiry g s) rt with
          | none => simp [refresh, hv, hs1, hs2]
          | some x => rw [hs1, hs2] at hiso; simp at hiso
        | some y =>
          cases hs2 : getActiveSession (mapExpiry g s) rt with
          | none => rw [hs1, hs2] at hiso; simp at hiso
          | some x =>
            simp only [refresh, hv, hs1, hs2, getUser_mapExpiry]
            cases hu : getUser s p.userId with
            | none => rfl
            | some u => by_cases hai : u.isActive = false <;> simp [hai]

/-- Witness for C5: the demo session is active but already expired at
`now = 100` (its `expiresAt` is 5), yet it is still returned, and the
refresh response does not change when every stored expiry is rewritten
to 0. -/
theorem getActiveSession_ignores_expiry_witness :
    (getActiveSession demoStore demoRefreshJwt).isSome ∧
    demoSession.token = demoRefreshJwt ∧ demoSession.isActive = true ∧
    demoSession.expiresAt < 100 ∧
    (refresh env0 100 (mapExpiry (fun _ => 0) demoStore)
        (some demoRefreshJwt)).1 =
      (refresh env0 100 demoStore (some demoRefreshJwt)).1 :=
  ⟨(getActiveSession_ignores_expiry demoStore demoRefreshJwt 100).1.mpr
      ⟨demoSession, by simp [demoStore], rfl, rfl⟩,
   ((getActiveSession_ignores_expiry demoStore demoRefreshJwt 100).2.1
      demoSession (by decide)).1,
   ((getActiveSession_ignores_expiry demoStore demoRefreshJwt 100).2.1
      demoSession (by decide)).2,
   by decide,
   (getActiveSession_ignores_expiry demoStore demoRefreshJwt 100).2.2.2
      env0 (some demoRefreshJwt) (fun _ => 0)⟩

/-- C2: the Authentication Gate rejects with 401 and a distinct message
at each stage, in order — missing (or empty, JS-falsy) header, header
with no token part, token failing access-token verification, and a valid
token whose user is missing or inactive — and otherwise attaches the
identity taken from the token payload and proceeds (appending the
`API_ACCESS` audit row). -/
theorem authenticate_stages (decode : String → Jwt) (env : Env) (now : Nat)
    (ip ua : Option String) (s : Store) (hdr : Option String) :
    ((hdr = none ∨ hdr = some "") →
      authenticate decode env now ip ua s hdr =
        (.reject ⟨401, .msg "No authorization header provided"⟩, s)) ∧
    (∀ h, hdr = some h → h ≠ "" → bearerToken h = none →
      authenticate decode env now ip ua s hdr =
        (.reject ⟨401, .msg "No token provided"⟩, s)) ∧
    (∀ h tok, hdr = some h → h ≠ "" → bearerToken h = some tok →
      verifyToken env now (decode tok) = none →
      authenticate decode env now ip ua s hdr =
        (.reject ⟨401, .msg "Invalid or expired token"⟩, s)) ∧
    (∀ h tok p, hdr = some h → h ≠ "" → bearerToken h = some tok →
      verifyToken env now (decode tok) = some p →
      (getUser s p.userId = none ∨
        ∃ u, getUser s p.userId = some u ∧ u.isActive = false) →
      authenticate decode env now ip ua s hdr =
        (.reject ⟨401, .msg "User not found or inactive"⟩, s)) ∧
    (∀ h tok p u, hdr = some h → h ≠ "" → bearerToken h = some tok →
      verifyToken env now (decode tok) = some p →
      getUser s p.userId = some u → u.isActive = true →
      authenticate decode env now ip ua s hdr =
        (.proceed ⟨p.userId, p.email, p.profile⟩,
         createAuditLog s
           ⟨some p.userId, "API_ACCESS", "users", some p.userId, ip, ua⟩)) := by
  refine ⟨?_, ?_, ?_, ?_, ?_⟩
  · rintro (rfl | rfl) <;> simp [authenticate]
  · rintro h rfl hne hb; simp [authenticate, hne, hb]
  · rintro h tok rfl hne hb hv; simp [authenticate, hne, hb, hv]
  · rintro h tok p rfl hne hb hv (hu | ⟨u, hu, hact⟩)
    · simp [authenticate, hne, hb, hv, hu]
    · simp [authenticate, hne, hb, hv, hu, hact]
  · rintro h tok p u rfl hne hb hv hu hact
    simp [authenticate, hne, hb, hv, hu, hact]

/-- Witness for C2: the missing-header, missing-token and success stages
exercised on the demo store. -/
theorem authenticate_stages_witness :
    authenticate demoDecode env0 0 none none demoStore none =
      (.reject ⟨401, .msg "No authorization header provided"⟩, demoStore) ∧
    authenticate demoDecode env0 0 none none demoStore (some "Bearer") =
      (.reject ⟨401, .msg "No token provided"⟩, demoStore) ∧
    authenticate demoDecode env0 0 none none demoStore (some "Bearer tkn") =
      (.proceed ⟨"u1", "admin@mecone.com", "ADMINISTRATOR"⟩,
       createAuditLog demoStore
         ⟨some "u1", "API_ACCESS", "users", some "u1", none, none⟩) :=
  ⟨(authenticate_stages demoDecode env0 0 none none demoStore none).1
      (Or.inl rfl),
   (authenticate_stages demoDecode env0 0 none none demoStore
      (some "Bearer")).2.1 "Bearer" rfl (by decide) (by decide),
   (authenticate_stages demoDecode env0 0 none none demoStore
      (some "Bearer tkn")).2.2.2.2 "Bearer tkn" "tkn" demoPayload demoUser
      rfl (by decide) (by decide) (by decide) (by decide) rfl⟩

/-- C7 counterexample: with valid credentials but a failing audit insert,
the login handler returns 500 "Internal server error" instead of the
success response (which the `auditOk = true` run shows would be 200); the
logout handler behaves the same way.  The audit write is awaited inside
the `try`, so its failure does block the success response. -/
theorem audit_failure_counterexample :
    (login env0 0 false none none demoStore
      ⟨some "admin@mecone.com", some "admin123"⟩).1 =
      ⟨500, .msg "Internal server error"⟩ ∧
    (login env0 0 true none none demoStore
      ⟨some "admin@mecone.com", some "admin123"⟩).1.status = 200 ∧
    (logout false none none ⟨"u1", "admin@mecone.com", "ADMINISTRATOR"⟩
      demoStore (some demoRefreshJwt)).1 =
      ⟨500, .msg "Internal server error"⟩ := by
  refine ⟨by decide, by decide, rfl⟩

/-- C7 amended: when the audit-record append fails, the login and logout
handlers return 500 "Internal server error" — the success response is
NOT returned — while the primary state changes made before the audit
write (last-login update and session creation for login; session
deactivation for logout) persist in the returned store. -/
theorem audit_failure_blocks_response (env : Env) (now : Nat)
    (ip ua : Option String) (s : Store) (email password : String)
    (u : UserRec) (hu : getUserByEmail s email = some u)
    (ha : u.isActive = true) (hc : comparePassword password u.password = true)
    (he : email ≠ "") (hp : password ≠ "") :
    login env now false ip ua s ⟨some email, some password⟩ =
      (⟨500, .msg "Internal server error"⟩,
       createSession (updateUserLastLogin s u.id now) u.id
         (generateTokens env now ⟨u.id, u.email, u.profile⟩).2
         (now + 7 * 24 * 60 * 60 * 1000) ip ua) ∧
    (∀ au rt s2, logout false ip ua au s2 (some rt) =
      (⟨500, .msg "Internal server error"⟩, deactivateSession s2 rt)) := by
  have hfe : jsFalsy (some email) = false := by simp [jsFalsy, he]
  have hfp : jsFalsy (some password) = false := by simp [jsFalsy, hp]
  constructor
  · simp [login, hfe, hfp, hu, ha, hc]
  · intro au rt s2; rfl

/-- Witness for the amended C7 on the demo store. -/
theorem audit_failure_blocks_response_witness :
    login env0 0 false none none demoStore
      ⟨some "admin@mecone.com", some "admin123"⟩ =
      (⟨500, .msg "Internal server error"⟩,
       createSession (updateUserLastLogin demoStore demoUser.id 0) demoUser.id
         (generateTokens env0 0
           ⟨demoUser.id, demoUser.email, demoUser.profile⟩).2
         (0 + 7 * 24 * 60 * 60 * 1000) none none) ∧
    logout false none none ⟨"u1", "admin@mecone.com", "ADMINISTRATOR"⟩
      demoStore (some demoRefreshJwt) =
      (⟨500, .msg "Internal server error"⟩,
       deactivateSession demoStore demoRefreshJwt) :=
  ⟨(audit_failure_blocks_response env0 0 none none demoStore
      "admin@mecone.com" "admin123" demoUser (by decide) rfl (by decide)
      (by decide) (by decide)).1,
   (audit_failure_blocks_response env0 0 none none demoStore
      "admin@mecone.com" "admin123" demoUser (by decide) rfl (by decide)
      (by decide) (by decide)).2
      ⟨"u1", "admin@mecone.com", "ADMINISTRATOR"⟩ demoRefreshJwt demoStore⟩

/-- C10: the Authentication Gate consults the store only for the user's
presence and `isActive` flag; the attached email and role come from the
token payload.  Hence two stores agreeing on that view (but possibly
differing in the stored user's email or role) yield the same outcome and
the same downstream Authorization Gate decision for the same request,
and on success the attached identity is exactly the payload's fields. -/
theorem identity_from_token_payload (decode : String → Jwt) (env : Env)
    (now : Nat) (ip ua : Option String) (hdr : Option String)
    (s1 s2 : Store) (hview : ∀ id, userView s1 id = userView s2 id) :
    (authenticate decode env now ip ua s1 hdr).1 =
      (authenticate decode env now ip ua s2 hdr).1 ∧
    (∀ profiles, authPipeline decode env now ip ua s1 hdr profiles =
      authPipeline decode env now ip ua s2 hdr profiles) ∧
    (∀ h tok p u, hdr = some h → h ≠ "" → bearerToken h = some tok →
      verifyToken env now (decode tok) = some p →
      getUser s1 p.userId = some u → u.isActive = true →
      (authenticate decode env now ip ua s1 hdr).1 =
        .proceed ⟨p.userId, p.email, p.profile⟩) := by
  have h1 : (authenticate decode env now ip ua s1 hdr).1 =
      (authenticate decode env now ip ua s2 hdr).1 := by
    cases hdr with
    | none => rfl
    | some h =>
      by_cases hh : h = ""
      · simp [authenticate, hh]
      · cases hb : bearerToken h with
        | none => simp [authenticate, hh, hb]
        | some tok =>
          cases hv : verifyToken env now (decode tok) with
          | none => simp [authenticate, hh, hb, hv]
          | some p =>
            have hv2 := hview p.userId
            cases hu1 : getUser s1 p.userId with
            | none =>
              cases hu2 : getUser s2 p.userId with
              | none => simp [authenticate, hh, hb, hv, hu1, hu2]
              | some u2 =>
                unfold userView at hv2
                rw [hu1, hu2] at hv2
                simp at hv2
            | some u1 =>
              cases hu2 : getUser s2 p.userId with
              | none =>
                unfold userView at hv2
                rw [hu1, hu2] at hv2
                simp at hv2
              | some u2 =>
                have hact : u1.isActive = u2.isActive := by
                  unfold userView at hv2
                  rw [hu1, hu2] at hv2
                  simpa using hv2
                cases h2 : u2.isActive with
                | false =>
                  simp [authenticate, hh, hb, hv, hu1, hu2, hact, h2]
                | true =>
                  simp [authenticate, hh, hb, hv, hu1, hu2, hact, h2]
  refine ⟨h1, ?_, ?_⟩
  · intro profiles; simp only [authPipeline, h1]
  · rintro h tok p u rfl hne hb hv hu hact
    simp [authenticate, hne, hb, hv, hu, hact]

/-- Witness for C10: against two stores that differ only in the stored
user's role (ADMINISTRATOR vs COORDINATOR) and email, the same request
yields the same outcome, and the attached identity carries the payload's
role, not the stored one. -/
theorem identity_from_token_payload_witness :
    (authenticate demoDecode env0 0 none none demoStore
        (some "Bearer tkn")).1 =
      (authenticate demoDecode env0 0 none none demoStoreAlt
        (some "Bearer tkn")).1 ∧
    (authenticate demoDecode env0 0 none none demoStore
        (some "Bearer tkn")).1 =
      .proceed ⟨"u1", "admin@mecone.com", "ADMINISTRATOR"⟩ ∧
    demoUserAlt.profile = "COORDINATOR" :=
  have hview : ∀ id, userView demoStore id = userView demoStoreAlt id := by
    intro id
    by_cases hid : ("u1" : String) = id <;>
      simp [userView, getUser, demoStore, demoStoreAlt, demoUser, demoUserAlt,
        List.find?, hid]
  ⟨(identity_from_token_payload demoDecode env0 0 none none
      (some "Bearer tkn") demoStore demoStoreAlt hview).1,
   (identity_from_token_payload demoDecode env0 0 none none
      (some "Bearer tkn") demoStore demoStoreAlt hview).2.2
      "Bearer tkn" "tkn" demoPayload demoUser rfl (by decide) (by decide)
      (by decide) (by decide) rfl,
   rfl⟩

end MecOne
